import Mathlib

/-!
Shallow embedding of the per-user auto-messaging core of `src/bot.py`:
the `ConfigManager` dictionary store, the `MessageScheduler` class
(logging, setup, start/stop, the `run_user_schedule` delivery loop,
`get_user_stats`), the `on_ready` boot hook, and the state-changing cores
of the `!setup`, `!edit`, `!start` and `!stop` command handlers.

Modelling conventions:
* JSON-file persistence (`save_data` / `save_logs`) is the identity on the
  in-memory mapping the state already holds, so a "persisted" record is a
  `SchedState` field.
* Wall-clock timestamps (`datetime.datetime.now().isoformat()`) are a
  natural-number clock `SchedState.now`, advanced by the modelled
  `asyncio.sleep` calls.
* The Discord library is an explicit `Client` capability record:
  `resolve` models `bot.get_channel(...) is not None` and `send` models
  `channel.send(text)` (`none` = success, `some e` = the raised exception
  caught by the loop's `except` block).
* `asyncio` tasks are entries of a task pool `SchedState.tasks`; a task
  handle can be cancelled (`Task.cancel()`), and `active_tasks` is the
  scheduler's `user_id -> task` dictionary.
* Messages actually handed to `channel.send` are recorded in the ghost
  trace `SchedState.sent` so that delivery counts are observable.
-/

/-- Association-list lookup, modelling Python `dict.get(k)`. -/
def alookup {α β : Type} [DecidableEq α] : List (α × β) → α → Option β
  | [], _ => none
  | (k, v) :: rest, a => if k = a then some v else alookup rest a

/-- Key removal, modelling Python `del d[k]`. -/
def aerase {α β : Type} [DecidableEq α] (l : List (α × β)) (a : α) : List (α × β) :=
  l.filter (fun p => decide (p.1 ≠ a))

/-- Key update, modelling Python `d[k] = v` (lookup semantics). -/
def ainsert {α β : Type} [DecidableEq α] (l : List (α × β)) (a : α) (b : β) : List (α × β) :=
  (a, b) :: aerase l a

/-- Python `str.isdigit()` on ASCII content: non-empty and all digits. -/
def pyIsDigit (s : String) : Bool :=
  !s.data.isEmpty && s.data.all Char.isDigit

/-- Python `int(s)` on the digit strings admitted by the validation
paths: the decimal value of the digit sequence. -/
def pyInt (s : String) : Nat :=
  s.data.foldl (fun n c => n * 10 + (c.toNat - Char.toNat (Char.ofNat 48))) 0

/-- The last `n` elements of a list, modelling the Python slice `l[-n:]`. -/
def lastN {α : Type} (n : Nat) (l : List α) : List α :=
  l.drop (l.length - n)

/-- One per-user configuration record, exactly the dictionary built by
`MessageScheduler.setup_user_schedule` (bot.py lines 130-139): keys
`token`, `channel_id`, `interval`, `message`, `enabled`, `created_at`,
`last_sent`, `total_sent`.  There is no `error_count` key. -/
structure UserConfig where
  token : String
  channel_id : String
  interval : Nat
  message : String
  enabled : Bool
  created_at : Nat
  last_sent : Option Nat
  total_sent : Nat
deriving DecidableEq

/-- A delivery-attempt record as built by `log_message` (bot.py 103-109). -/
structure LogEntry where
  timestamp : Nat
  user_id : String
  channel_id : String
  message : String
  status : String
deriving DecidableEq

/-- An error record as built by `log_error` (bot.py 118-122). -/
structure ErrorEntry where
  timestamp : Nat
  user_id : String
  error : String
deriving DecidableEq

/-- An `asyncio` task in the pool: its identity, the user whose delivery
loop it runs, and whether `cancel()` has been called on it. -/
structure SchedTask where
  tid : Nat
  user_id : Nat
  cancelled : Bool
deriving DecidableEq

/-- The whole observable state of the scheduler process:
`userConfigs` is `ConfigManager(USER_DATA_FILE).data` (keys are
`str(user_id)`), `messages`/`errors` are `MessageScheduler.logs`,
`tasks` is the pool of all tasks ever created with `active_tasks` the
scheduler's registry, `nextTid` a fresh task id, `sent` the ghost trace
of calls to `channel.send`, `now` the clock. -/
structure SchedState where
  userConfigs : List (String × UserConfig)
  messages : List LogEntry
  errors : List ErrorEntry
  tasks : List SchedTask
  activeTasks : List (Nat × Nat)
  nextTid : Nat
  sent : List (Nat × String)
  now : Nat
deriving DecidableEq

/-- The Messaging Client capability: `resolve` models
`bot.get_channel(int(channel_id)) is not None`; `send ch text` models
`channel.send(text)` where `none` is success and `some e` the raised
exception text caught by the loop. -/
structure Client where
  resolve : Nat → Bool
  send : Nat → String → Option String

/-- Clock advance, modelling `await asyncio.sleep(d)`. -/
def advance (st : SchedState) (d : Nat) : SchedState :=
  { st with now := st.now + d }

/-- Ghost record of one `await channel.send(text)` call. -/
def recordSend (st : SchedState) (channel : Nat) (text : String) : SchedState :=
  { st with sent := st.sent ++ [(channel, text)] }

/-- `ConfigManager.get_user_config` (bot.py 54-56): `self.data.get(str(user_id), {})`,
with the empty dict (falsy at every call site) modelled as `none`. -/
def get_user_config (st : SchedState) (user_id : Nat) : Option UserConfig :=
  alookup st.userConfigs (toString user_id)

/-- `ConfigManager.set_user_config` (bot.py 58-61): `self.data[str(user_id)] = config`
followed by `save_data()`. -/
def set_user_config (st : SchedState) (user_id : Nat) (config : UserConfig) : SchedState :=
  { st with userConfigs := ainsert st.userConfigs (toString user_id) config }

/-- `ConfigManager.delete_user_config` (bot.py 63-69). -/
def delete_user_config (st : SchedState) (user_id : Nat) : SchedState × Bool :=
  match alookup st.userConfigs (toString user_id) with
  | some _ => ({ st with userConfigs := aerase st.userConfigs (toString user_id) }, true)
  | none => (st, false)

/-- The log-entry dictionary built by `log_message` (bot.py 103-109);
`message[:100]` truncates the stored text. -/
def mkLogEntry (now : Nat) (user_id : Nat) (channel_id message status : String) : LogEntry :=
  { timestamp := now
    user_id := toString user_id
    channel_id := channel_id
    message := String.mk (message.data.take 100)
    status := status }

/-- `MessageScheduler.log_message` (bot.py 101-114): append the entry and
keep only the last 1000 entries (`self.logs["messages"][-1000:]`). -/
def log_message (st : SchedState) (user_id : Nat) (channel_id message status : String) : SchedState :=
  let ms := st.messages ++ [mkLogEntry st.now user_id channel_id message status]
  { st with messages := if ms.length > 1000 then lastN 1000 ms else ms }

/-- The error-entry dictionary built by `log_error` (bot.py 118-122);
`str(user_id) if user_id else "system"` (so `None` and the falsy id `0`
both record `"system"`), `error_message[:500]` truncates the text. -/
def mkErrorEntry (now : Nat) (user_id : Option Nat) (error_message : String) : ErrorEntry :=
  { timestamp := now
    user_id := match user_id with
      | some u => if u = 0 then "system" else toString u
      | none => "system"
    error := String.mk (error_message.data.take 500) }

/-- `MessageScheduler.log_error` (bot.py 116-126): append and keep only
the last 500 entries. -/
def log_error (st : SchedState) (error_message : String) (user_id : Option Nat) : SchedState :=
  let es := st.errors ++ [mkErrorEntry st.now user_id error_message]
  { st with errors := if es.length > 500 then lastN 500 es else es }

/-- Mark the task with id `tid` cancelled: `self.active_tasks[user_id].cancel()`. -/
def cancel_task (tasks : List SchedTask) (tid : Nat) : List SchedTask :=
  tasks.map (fun t => if t.tid = tid then { t with cancelled := true } else t)

/-- `MessageScheduler.start_user_schedule` (bot.py 145-157): return early
when the config is absent or not enabled; otherwise cancel the task
registered for `user_id` (if any), create a fresh task and register it. -/
def start_user_schedule (st : SchedState) (user_id : Nat) : SchedState :=
  match get_user_config st user_id with
  | none => st
  | some config =>
    if config.enabled then
      let tasks1 := match alookup st.activeTasks user_id with
        | some tid => cancel_task st.tasks tid
        | none => st.tasks
      { st with
          tasks := tasks1 ++ [{ tid := st.nextTid, user_id := user_id, cancelled := false }]
          activeTasks := ainsert st.activeTasks user_id st.nextTid
          nextTid := st.nextTid + 1 }
    else st

/-- `MessageScheduler.stop_user_schedule` (bot.py 200-204): if a task is
registered for `user_id`, cancel it and delete the registry entry;
otherwise do nothing. -/
def stop_user_schedule (st : SchedState) (user_id : Nat) : SchedState :=
  match alookup st.activeTasks user_id with
  | some tid =>
    { st with
        tasks := cancel_task st.tasks tid
        activeTasks := aerase st.activeTasks user_id }
  | none => st

/-- `MessageScheduler.setup_user_schedule` (bot.py 128-143): build the
fresh config dictionary (`enabled=True`, `last_sent=None`, `total_sent=0`),
persist it, start the schedule, and return the config. -/
def setup_user_schedule (st : SchedState) (user_id : Nat) (token : String)
    (channel_id : Nat) (interval_minutes : Nat) (message : String) : SchedState × UserConfig :=
  let config : UserConfig :=
    { token := token
      channel_id := toString channel_id
      interval := interval_minutes
      message := message
      enabled := true
      created_at := st.now
      last_sent := none
      total_sent := 0 }
  let st1 := set_user_config st user_id config
  (start_user_schedule st1 user_id, config)

/-- Outcome of one iteration of the `while True` body of
`run_user_schedule`: `exit` models `break`, `cont` models falling through
to the next iteration. -/
inductive CycleOutcome : Type
  | exit : CycleOutcome
  | cont : CycleOutcome
deriving DecidableEq

/-- One iteration of the `while True` loop of
`MessageScheduler.run_user_schedule` (bot.py 169-198), for the
`interval`, `channel_id` and `message` captured at loop start:
sleep `interval * 60`; re-read the config and `break` when it is absent
or not enabled; resolve the channel; on success send, stamp `last_sent`,
bump `total_sent`, persist, and log a `"sent"` entry; when the channel is
missing log a `"failed - channel not found"` entry plus an error entry;
when `channel.send` raises, the `except` block logs the error and sleeps
a further 60 seconds before the next iteration. -/
def run_cycle (cl : Client) (st : SchedState) (user_id interval : Nat)
    (channel_id message : String) : SchedState × CycleOutcome :=
  let st1 := advance st (interval * 60)
  match get_user_config st1 user_id with
  | none => (st1, CycleOutcome.exit)
  | some config =>
    if config.enabled then
      if cl.resolve (pyInt channel_id) then
        match cl.send (pyInt channel_id) message with
        | none =>
          let config2 := { config with
            last_sent := some st1.now
            total_sent := config.total_sent + 1 }
          let st2 := set_user_config (recordSend st1 (pyInt channel_id) message) user_id config2
          (log_message st2 user_id channel_id message "sent", CycleOutcome.cont)
        | some e =>
          let st2 := log_error st1 ("Error in user schedule " ++ toString user_id ++ ": " ++ e) (some user_id)
          (advance st2 60, CycleOutcome.cont)
      else
        let st2 := log_message st1 user_id channel_id message "failed - channel not found"
        (log_error st2 ("Channel " ++ channel_id ++ " not found") (some user_id), CycleOutcome.cont)
    else (st1, CycleOutcome.exit)

/-- Fuel-indexed unfolding of the `while True` loop of
`run_user_schedule` for captured loop parameters. -/
def run_loop (cl : Client) (user_id interval : Nat) (channel_id message : String) :
    Nat → SchedState → SchedState
  | 0, st => st
  | Nat.succ n, st =>
    match run_cycle cl st user_id interval channel_id message with
    | (st2, CycleOutcome.exit) => st2
    | (st2, CycleOutcome.cont) => run_loop cl user_id interval channel_id message n st2

/-- `MessageScheduler.run_user_schedule` (bot.py 159-198): return when the
config is absent, otherwise capture `interval`, `channel_id`, `message`
once and run the loop (for `fuel` iterations). -/
def run_user_schedule (cl : Client) (fuel : Nat) (st : SchedState) (user_id : Nat) : SchedState :=
  match get_user_config st user_id with
  | none => st
  | some config => run_loop cl user_id config.interval config.channel_id config.message fuel st

/-- The per-user statistics object returned by `get_user_stats`
(bot.py 219-228). -/
structure UserStats where
  config : UserConfig
  total_sent : Nat
  successful_logs : Nat
  failed_logs : Nat
  last_sent : Option Nat
  created_at : Nat
deriving DecidableEq

/-- `MessageScheduler.get_user_stats` (bot.py 206-228): `None` when no
config exists; otherwise the config together with counters derived from
the message log (note the `status == "failed"` comparison is an exact
string match). -/
def get_user_stats (st : SchedState) (user_id : Nat) : Option UserStats :=
  match get_user_config st user_id with
  | none => none
  | some config =>
    some
      { config := config
        total_sent := config.total_sent
        successful_logs :=
          ((st.messages.filter (fun l => l.user_id == toString user_id)).filter
            (fun l => l.status == "sent")).length
        failed_logs :=
          ((st.messages.filter (fun l => l.user_id == toString user_id)).filter
            (fun l => l.status == "failed")).length
        last_sent := config.last_sent
        created_at := config.created_at }

/-- The `on_ready` boot hook (bot.py 417-422): for every key of the
persisted user mapping, call `start_user_schedule(int(user_id_str))`. -/
def on_ready_boot (st : SchedState) : SchedState :=
  (st.userConfigs.map (fun p => p.1)).foldl (fun s k => start_user_schedule s (pyInt k)) st

/-- The reasons the `!setup` wizard rejects its input (bot.py 464-479). -/
inductive SetupReject : Type
  | emptyToken : SetupReject
  | channelNotDigits : SetupReject
  | badInterval : SetupReject
  | emptyMessage : SetupReject
deriving DecidableEq

/-- The validation and state change of `setup_command` (bot.py 459-493)
after the four reply lines are split and stripped: reject an empty token,
a non-digit channel id, a non-digit or below-minimum interval, an empty
message; otherwise convert channel id and interval with `int(...)` and
call `setup_user_schedule`. -/
def setup_command (st : SchedState) (user_id : Nat)
    (token channel_id interval message : String) : Except SetupReject (SchedState × UserConfig) :=
  if token = "" then Except.error SetupReject.emptyToken
  else if !pyIsDigit channel_id then Except.error SetupReject.channelNotDigits
  else if !pyIsDigit interval || pyInt interval < 1 then Except.error SetupReject.badInterval
  else if message = "" then Except.error SetupReject.emptyMessage
  else Except.ok (setup_user_schedule st user_id token (pyInt channel_id) (pyInt interval) message)

/-- Choice `1` of `edit_command` (bot.py 790-798, 820-823): replace the
message text (any reply accepted), persist, then stop and restart the
schedule. -/
def edit_message (st : SchedState) (user_id : Nat) (s : String) : SchedState :=
  match get_user_stats st user_id with
  | none => st
  | some us =>
    let st1 := set_user_config st user_id { us.config with message := s }
    start_user_schedule (stop_user_schedule st1 user_id) user_id

/-- Choice `2` of `edit_command` (bot.py 800-808, 820-823): the waited-for
reply must satisfy `m.content.isdigit()` (no minimum-value check); then
`config["interval"] = int(...)`, persist, stop, restart. -/
def edit_interval (st : SchedState) (user_id : Nat) (s : String) : SchedState :=
  match get_user_stats st user_id with
  | none => st
  | some us =>
    if pyIsDigit s then
      let st1 := set_user_config st user_id { us.config with interval := pyInt s }
      start_user_schedule (stop_user_schedule st1 user_id) user_id
    else st

/-- Choice `3` of `edit_command` (bot.py 810-823): the digit-checked reply
is stored verbatim as the new `channel_id`, persist, stop, restart. -/
def edit_channel (st : SchedState) (user_id : Nat) (s : String) : SchedState :=
  match get_user_stats st user_id with
  | none => st
  | some us =>
    if pyIsDigit s then
      let st1 := set_user_config st user_id { us.config with channel_id := s }
      start_user_schedule (stop_user_schedule st1 user_id) user_id
    else st

/-- The state change of `start_command` (bot.py 863-875): when a config
exists, set `enabled = True`, persist, and start the schedule. -/
def start_command (st : SchedState) (user_id : Nat) : SchedState :=
  match get_user_stats st user_id with
  | none => st
  | some us =>
    let st1 := set_user_config st user_id { us.config with enabled := true }
    start_user_schedule st1 user_id

/-- The state change of `stop_command` (bot.py 833-845): when a config
exists, set `enabled = False`, persist, and stop the schedule. -/
def stop_command (st : SchedState) (user_id : Nat) : SchedState :=
  match get_user_stats st user_id with
  | none => st
  | some us =>
    let st1 := set_user_config st user_id { us.config with enabled := false }
    stop_user_schedule st1 user_id

/-! ### Association-list lemmas -/

theorem alookup_cons {α β : Type} [DecidableEq α] (k : α) (v : β) (rest : List (α × β)) (a : α) :
    alookup ((k, v) :: rest) a = if k = a then some v else alookup rest a := rfl

theorem aerase_cons {α β : Type} [DecidableEq α] (k : α) (v : β) (rest : List (α × β)) (a : α) :
    aerase ((k, v) :: rest) a = if k = a then aerase rest a else (k, v) :: aerase rest a := by
  by_cases hk : k = a <;> simp [aerase, List.filter_cons, hk]

theorem alookup_aerase_ne {α β : Type} [DecidableEq α] (l : List (α × β)) {a a2 : α}
    (h : a2 ≠ a) : alookup (aerase l a) a2 = alookup l a2 := by
  induction l with
  | nil => rfl
  | cons p rest ih =>
    obtain ⟨k, v⟩ := p
    rw [aerase_cons]
    by_cases hk : k = a
    · rw [if_pos hk, ih, alookup_cons, if_neg (by rw [hk]; exact Ne.symm h)]
    · rw [if_neg hk, alookup_cons, alookup_cons]
      by_cases hk2 : k = a2 <;> simp [hk2, ih]

theorem alookup_aerase_self {α β : Type} [DecidableEq α] (l : List (α × β)) (a : α) :
    alookup (aerase l a) a = none := by
  induction l with
  | nil => rfl
  | cons p rest ih =>
    obtain ⟨k, v⟩ := p
    rw [aerase_cons]
    by_cases hk : k = a
    · rw [if_pos hk]; exact ih
    · rw [if_neg hk, alookup_cons, if_neg hk]; exact ih

theorem alookup_ainsert_self {α β : Type} [DecidableEq α] (l : List (α × β)) (a : α) (b : β) :
    alookup (ainsert l a b) a = some b := by
  simp [ainsert, alookup]

theorem alookup_ainsert_ne {α β : Type} [DecidableEq α] (l : List (α × β)) {a a2 : α} (b : β)
    (h : a2 ≠ a) : alookup (ainsert l a b) a2 = alookup l a2 := by
  rw [ainsert, alookup_cons, if_neg (Ne.symm h)]
  exact alookup_aerase_ne l h

theorem alookup_ainsert {α β : Type} [DecidableEq α] (l : List (α × β)) (a a2 : α) (b : β) :
    alookup (ainsert l a b) a2 = if a2 = a then some b else alookup l a2 := by
  by_cases h : a2 = a
  · subst h; simp [alookup_ainsert_self]
  · simp [alookup_ainsert_ne l b h, h]

theorem alookup_mem {α β : Type} [DecidableEq α] {l : List (α × β)} {a : α} {b : β}
    (h : alookup l a = some b) : (a, b) ∈ l := by
  induction l with
  | nil => simp [alookup] at h
  | cons p rest ih =>
    obtain ⟨k, v⟩ := p
    rw [alookup_cons] at h
    by_cases hk : k = a
    · rw [if_pos hk] at h
      injection h with h2
      subst h2
      rw [← hk]
      exact List.mem_cons_self _ _
    · rw [if_neg hk] at h
      exact List.mem_cons_of_mem _ (ih h)

/-! ### Small frame lemmas about the scheduler operations -/

theorem get_user_config_advance (st : SchedState) (d : Nat) (user_id : Nat) :
    get_user_config (advance st d) user_id = get_user_config st user_id := rfl

theorem start_userConfigs (st : SchedState) (user_id : Nat) :
    (start_user_schedule st user_id).userConfigs = st.userConfigs := by
  unfold start_user_schedule
  split
  · rfl
  · split <;> rfl

theorem stop_userConfigs (st : SchedState) (user_id : Nat) :
    (stop_user_schedule st user_id).userConfigs = st.userConfigs := by
  unfold stop_user_schedule
  split <;> rfl

theorem lastN_length_le {α : Type} (n : Nat) (l : List α) : (lastN n l).length ≤ n := by
  unfold lastN
  rw [List.length_drop]
  omega

theorem lastN_of_le {α : Type} {n : Nat} {l : List α} (h : l.length ≤ n) : lastN n l = l := by
  unfold lastN
  rw [Nat.sub_eq_zero_of_le h, List.drop_zero]

theorem log_message_messages (st : SchedState) (user_id : Nat) (channel_id message status : String) :
    (log_message st user_id channel_id message status).messages
      = lastN 1000 (st.messages ++ [mkLogEntry st.now user_id channel_id message status]) := by
  show (if (st.messages ++ [mkLogEntry st.now user_id channel_id message status]).length > 1000
      then lastN 1000 (st.messages ++ [mkLogEntry st.now user_id channel_id message status])
      else st.messages ++ [mkLogEntry st.now user_id channel_id message status])
    = lastN 1000 (st.messages ++ [mkLogEntry st.now user_id channel_id message status])
  split
  · rfl
  · next h => exact (lastN_of_le (by omega)).symm

theorem log_error_errors (st : SchedState) (error_message : String) (user_id : Option Nat) :
    (log_error st error_message user_id).errors
      = lastN 500 (st.errors ++ [mkErrorEntry st.now user_id error_message]) := by
  show (if (st.errors ++ [mkErrorEntry st.now user_id error_message]).length > 500
      then lastN 500 (st.errors ++ [mkErrorEntry st.now user_id error_message])
      else st.errors ++ [mkErrorEntry st.now user_id error_message])
    = lastN 500 (st.errors ++ [mkErrorEntry st.now user_id error_message])
  split
  · rfl
  · next h => exact (lastN_of_le (by omega)).symm

/-! ### Shared concrete states and clients used by witnesses -/

/-- A Messaging Client for which every channel resolves and every send
succeeds. -/
def okClient : Client :=
  { resolve := fun _ => true, send := fun _ _ => none }

/-- A Messaging Client for which no channel resolves. -/
def noChannelClient : Client :=
  { resolve := fun _ => false, send := fun _ _ => none }

/-- A disabled configuration used by concrete witnesses. -/
def wCfgOff : UserConfig :=
  { token := "t", channel_id := "123", interval := 5, message := "hi"
    enabled := false, created_at := 0, last_sent := none, total_sent := 3 }

/-- An enabled configuration used by concrete witnesses. -/
def wCfgOn : UserConfig :=
  { token := "t", channel_id := "123", interval := 5, message := "hi"
    enabled := true, created_at := 0, last_sent := none, total_sent := 5 }

/-- A state holding a disabled config for user 7. -/
def wStateOff : SchedState :=
  { userConfigs := [("7", wCfgOff)], messages := [], errors := [], tasks := []
    activeTasks := [], nextTid := 0, sent := [], now := 0 }

/-- A state holding an enabled config for user 7 whose loop task 0 is
registered. -/
def wStateOn : SchedState :=
  { userConfigs := [("7", wCfgOn)], messages := [], errors := []
    tasks := [{ tid := 0, user_id := 7, cancelled := false }]
    activeTasks := [(7, 0)], nextTid := 1, sent := [], now := 100 }

/-! ### C4 -/

/-- C4: after every call to `log_message` the message log is exactly the
most recent 1000 entries of the old log plus the appended entry (in
order) and so holds at most 1000 entries, and the error log is untouched;
after every call to `log_error` the error log is exactly the most recent
500 entries of the old log plus the appended entry and so holds at most
500 entries, and the message log is untouched. -/
theorem C4_log_stores_bounded (st : SchedState) (user_id : Nat)
    (channel_id message status e : String) (uid2 : Option Nat) :
    (log_message st user_id channel_id message status).messages
      = lastN 1000 (st.messages ++ [mkLogEntry st.now user_id channel_id message status]) ∧
    (log_message st user_id channel_id message status).messages.length ≤ 1000 ∧
    (log_message st user_id channel_id message status).errors = st.errors ∧
    (log_error st e uid2).errors
      = lastN 500 (st.errors ++ [mkErrorEntry st.now uid2 e]) ∧
    (log_error st e uid2).errors.length ≤ 500 ∧
    (log_error st e uid2).messages = st.messages := by
  refine ⟨log_message_messages st user_id channel_id message status, ?_, rfl,
    log_error_errors st e uid2, ?_, rfl⟩
  · rw [log_message_messages]
    exact lastN_length_le _ _
  · rw [log_error_errors]
    exact lastN_length_le _ _

/-! ### C2 -/

/-- C2: when the delivery loop wakes from its sleep and observes the
persisted config absent or with `enabled = false`, the cycle performs no
delivery attempt (no send, no config write, no log writes) and the loop
self-terminates: the cycle outcome is `exit`, and the loop with any
remaining fuel returns immediately after that one wake-up. -/
theorem C2_disabled_config_self_terminates (cl : Client) (st : SchedState)
    (user_id interval : Nat) (channel_id message : String)
    (h : ∀ config, get_user_config st user_id = some config → config.enabled = false) :
    run_cycle cl st user_id interval channel_id message
      = (advance st (interval * 60), CycleOutcome.exit) ∧
    (run_cycle cl st user_id interval channel_id message).1.sent = st.sent ∧
    (run_cycle cl st user_id interval channel_id message).1.userConfigs = st.userConfigs ∧
    (run_cycle cl st user_id interval channel_id message).1.messages = st.messages ∧
    (run_cycle cl st user_id interval channel_id message).1.errors = st.errors ∧
    ∀ n, run_loop cl user_id interval channel_id message (n + 1) st
      = advance st (interval * 60) := by
  have main : run_cycle cl st user_id interval channel_id message
      = (advance st (interval * 60), CycleOutcome.exit) := by
    cases hc : get_user_config st user_id with
    | none => simp [run_cycle, get_user_config_advance, hc]
    | some config => simp [run_cycle, get_user_config_advance, hc, h config hc]
  refine ⟨main, by rw [main]; rfl, by rw [main]; rfl, by rw [main]; rfl, by rw [main]; rfl, ?_⟩
  intro n
  unfold run_loop
  rw [main]

/-- Witness for C2 at a concrete disabled config. -/
theorem C2_disabled_config_self_terminates_witness :
    run_cycle okClient wStateOff 7 5 "123" "hi"
      = (advance wStateOff (5 * 60), CycleOutcome.exit) :=
  (C2_disabled_config_self_terminates okClient wStateOff 7 5 "123" "hi"
    (by
      intro config hc
      have hv : get_user_config wStateOff 7 = some wCfgOff := by decide
      rw [hv] at hc
      injection hc with h2
      rw [← h2]
      decide)).1

/-! ### C1: the task-pool invariant and supersede semantics of start -/

/-- The tasks of `user_id` that are alive (created and never cancelled):
the "active delivery loops" of that user. -/
def aliveFor (st : SchedState) (user_id : Nat) : List SchedTask :=
  st.tasks.filter (fun t => t.user_id == user_id && !t.cancelled)

/-- Bookkeeping invariant of the scheduler's task registry: task ids are
below the fresh counter and pairwise distinct, every alive task is the
one registered in `active_tasks` under its user, and every registry entry
points at a task of that user in the pool. -/
def TasksInv (st : SchedState) : Prop :=
  (∀ t ∈ st.tasks, t.tid < st.nextTid) ∧
  st.tasks.Pairwise (fun t1 t2 => t1.tid ≠ t2.tid) ∧
  (∀ t ∈ st.tasks, t.cancelled = false → alookup st.activeTasks t.user_id = some t.tid) ∧
  (∀ p ∈ st.activeTasks, ∃ t ∈ st.tasks, t.tid = p.2 ∧ t.user_id = p.1)

theorem mem_aliveFor {st : SchedState} {u : Nat} {t : SchedTask} :
    t ∈ aliveFor st u ↔ t ∈ st.tasks ∧ t.user_id = u ∧ t.cancelled = false := by
  simp [aliveFor, List.mem_filter, Bool.and_eq_true, and_assoc]

theorem aliveFor_le_one {st : SchedState} (h : TasksInv st) (u : Nat) :
    (aliveFor st u).length ≤ 1 := by
  obtain ⟨-, hpw, hreg, -⟩ := h
  have hpw2 : (aliveFor st u).Pairwise (fun t1 t2 => t1.tid ≠ t2.tid) := hpw.filter _
  cases hl : aliveFor st u with
  | nil => simp
  | cons a tl =>
    cases tl with
    | nil => simp
    | cons b tl2 =>
      exfalso
      have ha : a ∈ aliveFor st u := by rw [hl]; exact List.mem_cons_self _ _
      have hb : b ∈ aliveFor st u := by
        rw [hl]; exact List.mem_cons_of_mem _ (List.mem_cons_self _ _)
      obtain ⟨ha1, ha2, ha3⟩ := mem_aliveFor.mp ha
      obtain ⟨hb1, hb2, hb3⟩ := mem_aliveFor.mp hb
      have hra := hreg a ha1 ha3
      have hrb := hreg b hb1 hb3
      rw [ha2] at hra
      rw [hb2] at hrb
      rw [hra] at hrb
      injection hrb with htid
      rw [hl] at hpw2
      exact (List.pairwise_cons.mp hpw2).1 b (List.mem_cons_self _ _) htid

theorem cancel_task_elem_tid (tid : Nat) (t0 : SchedTask) :
    (if t0.tid = tid then { t0 with cancelled := true } else t0).tid = t0.tid := by
  split <;> rfl

theorem cancel_task_elem_user (tid : Nat) (t0 : SchedTask) :
    (if t0.tid = tid then { t0 with cancelled := true } else t0).user_id = t0.user_id := by
  split <;> rfl

theorem cancel_task_elem_alive {tid : Nat} {t0 : SchedTask}
    (h : (if t0.tid = tid then { t0 with cancelled := true } else t0).cancelled = false) :
    t0.tid ≠ tid ∧ (if t0.tid = tid then { t0 with cancelled := true } else t0) = t0 := by
  by_cases ht : t0.tid = tid
  · rw [if_pos ht] at h
    exact absurd h (by simp)
  · exact ⟨ht, if_neg ht⟩

theorem mem_cancel_task {tasks : List SchedTask} {tid : Nat} {t : SchedTask} :
    t ∈ cancel_task tasks tid ↔
      ∃ t0 ∈ tasks, (if t0.tid = tid then { t0 with cancelled := true } else t0) = t := by
  simp [cancel_task, List.mem_map]

theorem cancel_task_pairwise {tasks : List SchedTask} {tid : Nat}
    (h : tasks.Pairwise (fun t1 t2 => t1.tid ≠ t2.tid)) :
    (cancel_task tasks tid).Pairwise (fun t1 t2 => t1.tid ≠ t2.tid) := by
  unfold cancel_task
  refine List.Pairwise.map _ ?_ h
  intro a b hab
  rw [cancel_task_elem_tid, cancel_task_elem_tid]
  exact hab

theorem start_eq_of_enabled (st : SchedState) (user_id : Nat) (config : UserConfig)
    (hc : get_user_config st user_id = some config) (he : config.enabled = true) :
    start_user_schedule st user_id =
      { st with
          tasks := (match alookup st.activeTasks user_id with
            | some tid => cancel_task st.tasks tid
            | none => st.tasks) ++ [{ tid := st.nextTid, user_id := user_id, cancelled := false }]
          activeTasks := ainsert st.activeTasks user_id st.nextTid
          nextTid := st.nextTid + 1 } := by
  unfold start_user_schedule
  rw [hc]
  simp [he]

theorem start_eq_of_not_enabled (st : SchedState) (user_id : Nat)
    (h : ∀ config, get_user_config st user_id = some config → config.enabled = false) :
    start_user_schedule st user_id = st := by
  unfold start_user_schedule
  cases hc : get_user_config st user_id with
  | none => rfl
  | some config => simp [h config hc]

theorem C1_enabled_case (st : SchedState) (user_id : Nat) (config : UserConfig)
    (h : TasksInv st) (hc : get_user_config st user_id = some config)
    (he : config.enabled = true) :
    TasksInv (start_user_schedule st user_id) ∧
    (aliveFor (start_user_schedule st user_id) user_id).length = 1 ∧
    alookup (start_user_schedule st user_id).activeTasks user_id = some st.nextTid ∧
    (∀ tid0, alookup st.activeTasks user_id = some tid0 →
      ∀ t ∈ (start_user_schedule st user_id).tasks, t.tid = tid0 → t.cancelled = true) := by
  obtain ⟨h1, h2, h3, h4⟩ := h
  rw [start_eq_of_enabled st user_id config hc he]
  unfold TasksInv aliveFor
  cases hr : alookup st.activeTasks user_id with
  | none =>
    dsimp only
    refine ⟨⟨?_, ?_, ?_, ?_⟩, ?_, alookup_ainsert_self _ _ _, ?_⟩
    · intro t ht
      rcases List.mem_append.mp ht with hold | hnew
      · exact Nat.lt_succ_of_lt (h1 t hold)
      · rw [List.mem_singleton.mp hnew]
        exact Nat.lt_succ_self _
    · refine List.pairwise_append.mpr ⟨h2, List.pairwise_singleton _ _, ?_⟩
      intro a ha b hb
      rw [List.mem_singleton.mp hb]
      exact Nat.ne_of_lt (h1 a ha)
    · intro t ht hal
      rcases List.mem_append.mp ht with hold | hnew
      · have hreg := h3 t hold hal
        by_cases hu : t.user_id = user_id
        · rw [hu, hr] at hreg
          cases hreg
        · rw [alookup_ainsert_ne _ _ hu]
          exact hreg
      · rw [List.mem_singleton.mp hnew]
        exact alookup_ainsert_self _ _ _
    · intro p hp
      rcases List.mem_cons.mp hp with heq | hp2
      · refine ⟨{ tid := st.nextTid, user_id := user_id, cancelled := false },
          List.mem_append_right _ (List.mem_singleton_self _), ?_, ?_⟩
        · rw [heq]
        · rw [heq]
      · have hmem := (List.mem_filter.mp hp2).1
        obtain ⟨t, htm, htt, htu⟩ := h4 p hmem
        exact ⟨t, List.mem_append_left _ htm, htt, htu⟩
    · rw [List.filter_append]
      have hnil : st.tasks.filter (fun t => t.user_id == user_id && !t.cancelled) = [] := by
        rw [List.filter_eq_nil_iff]
        intro t ht hp
        rw [Bool.and_eq_true, beq_iff_eq, Bool.not_eq_true'] at hp
        have hreg := h3 t ht hp.2
        rw [hp.1, hr] at hreg
        cases hreg
      rw [hnil]
      simp
    · intro tid0 h0
      cases h0
  | some tid0 =>
    dsimp only
    refine ⟨⟨?_, ?_, ?_, ?_⟩, ?_, alookup_ainsert_self _ _ _, ?_⟩
    · intro t ht
      rcases List.mem_append.mp ht with hold | hnew
      · obtain ⟨t0, ht0, heq⟩ := mem_cancel_task.mp hold
        rw [← heq, cancel_task_elem_tid]
        exact Nat.lt_succ_of_lt (h1 t0 ht0)
      · rw [List.mem_singleton.mp hnew]
        exact Nat.lt_succ_self _
    · refine List.pairwise_append.mpr ⟨cancel_task_pairwise h2, List.pairwise_singleton _ _, ?_⟩
      intro a ha b hb
      rw [List.mem_singleton.mp hb]
      obtain ⟨t0, ht0, heq⟩ := mem_cancel_task.mp ha
      rw [← heq, cancel_task_elem_tid]
      exact Nat.ne_of_lt (h1 t0 ht0)
    · intro t ht hal
      rcases List.mem_append.mp ht with hold | hnew
      · obtain ⟨t0, ht0, heq⟩ := mem_cancel_task.mp hold
        rw [← heq] at hal
        obtain ⟨hne, hid⟩ := cancel_task_elem_alive hal
        rw [hid] at heq hal
        rw [← heq]
        have hreg := h3 t0 ht0 hal
        by_cases hu : t0.user_id = user_id
        · rw [hu, hr] at hreg
          injection hreg with htid
          exact absurd htid.symm hne
        · rw [alookup_ainsert_ne _ _ hu]
          exact hreg
      · rw [List.mem_singleton.mp hnew]
        exact alookup_ainsert_self _ _ _
    · intro p hp
      rcases List.mem_cons.mp hp with heq | hp2
      · refine ⟨{ tid := st.nextTid, user_id := user_id, cancelled := false },
          List.mem_append_right _ (List.mem_singleton_self _), ?_, ?_⟩
        · rw [heq]
        · rw [heq]
      · have hmem := (List.mem_filter.mp hp2).1
        obtain ⟨t, htm, htt, htu⟩ := h4 p hmem
        refine ⟨(if t.tid = tid0 then { t with cancelled := true } else t : SchedTask),
          List.mem_append_left _ (mem_cancel_task.mpr ⟨t, htm, rfl⟩), ?_, ?_⟩
        · rw [cancel_task_elem_tid]
          exact htt
        · rw [cancel_task_elem_user]
          exact htu
    · rw [List.filter_append]
      have hnil : (cancel_task st.tasks tid0).filter
          (fun t => t.user_id == user_id && !t.cancelled) = [] := by
        rw [List.filter_eq_nil_iff]
        intro t ht hp
        rw [Bool.and_eq_true, beq_iff_eq, Bool.not_eq_true'] at hp
        obtain ⟨t0, ht0, heq⟩ := mem_cancel_task.mp ht
        have hal : (if t0.tid = tid0 then { t0 with cancelled := true } else t0).cancelled = false := by
          rw [heq]; exact hp.2
        obtain ⟨hne, hid⟩ := cancel_task_elem_alive hal
        rw [hid] at heq hal
        have hreg := h3 t0 ht0 hal
        rw [heq, hp.1, hr] at hreg
        injection hreg with htid
        refine hne ?_
        rw [heq]
        exact htid.symm
      rw [hnil]
      simp
    · intro tid0q h0 t ht htid
      injection h0 with h0e
      rw [← h0e] at htid
      rcases List.mem_append.mp ht with hold | hnew
      · obtain ⟨t0, ht0, heq⟩ := mem_cancel_task.mp hold
        by_cases h00 : t0.tid = tid0
        · rw [if_pos h00] at heq
          rw [← heq]
        · rw [if_neg h00] at heq
          rw [← heq] at htid
          exact absurd htid h00
      · exfalso
        obtain ⟨t1, ht1, h1tid, -⟩ := h4 (user_id, tid0) (alookup_mem hr)
        have hlt := h1 t1 ht1
        rw [h1tid] at hlt
        have hnt : st.nextTid = tid0 := by
          rw [List.mem_singleton.mp hnew] at htid
          exact htid
        rw [hnt] at hlt
        exact Nat.lt_irrefl _ hlt

/-- C1: for every user there is at most one active (never-cancelled)
delivery loop task: `start_user_schedule` preserves the registry
invariant; after it every user has at most one alive task; and when the
config is present and enabled, the started user has exactly one alive
task, the fresh task is registered for them, and any previously
registered task of theirs has been cancelled before the new one was
registered — so starting twice leaves exactly one active loop. -/
theorem C1_at_most_one_loop_per_user (st : SchedState) (user_id : Nat) (h : TasksInv st) :
    TasksInv (start_user_schedule st user_id) ∧
    (∀ u, (aliveFor (start_user_schedule st user_id) u).length ≤ 1) ∧
    (∀ config, get_user_config st user_id = some config → config.enabled = true →
      (aliveFor (start_user_schedule st user_id) user_id).length = 1 ∧
      alookup (start_user_schedule st user_id).activeTasks user_id = some st.nextTid ∧
      (∀ tid0, alookup st.activeTasks user_id = some tid0 →
        ∀ t ∈ (start_user_schedule st user_id).tasks, t.tid = tid0 → t.cancelled = true)) := by
  by_cases hen : ∃ config, get_user_config st user_id = some config ∧ config.enabled = true
  · obtain ⟨config, hc, he⟩ := hen
    obtain ⟨hi, hl1, hl2, hl3⟩ := C1_enabled_case st user_id config h hc he
    exact ⟨hi, fun u => aliveFor_le_one hi u, fun c hcc hee => ⟨hl1, hl2, hl3⟩⟩
  · have hno : ∀ config, get_user_config st user_id = some config → config.enabled = false := by
      intro config hcc
      by_contra hne
      exact hen ⟨config, hcc, by revert hne; cases config.enabled <;> simp⟩
    rw [start_eq_of_not_enabled st user_id hno]
    refine ⟨h, fun u => aliveFor_le_one h u, ?_⟩
    intro config hcc hee
    rw [hno config hcc] at hee
    cases hee

/-- Witness for C1 at a state with one registered running task for user
7, whose enabled config causes a restart that supersedes task 0. -/
theorem C1_at_most_one_loop_per_user_witness :
    TasksInv (start_user_schedule wStateOn 7) ∧
    (aliveFor (start_user_schedule wStateOn 7) 7).length = 1 :=
  ⟨(C1_at_most_one_loop_per_user wStateOn 7
      (by unfold TasksInv; refine ⟨by decide, ?_, by decide, by decide⟩; decide)).1,
   ((C1_at_most_one_loop_per_user wStateOn 7
      (by unfold TasksInv; refine ⟨by decide, ?_, by decide, by decide⟩; decide)).2.2 wCfgOn
      (by decide) (by decide)).1⟩

/-! ### C10 -/

/-- C10: `stop_user_schedule` only cancels and removes the in-memory
task handle: the persisted config mapping (hence every user's `enabled`,
`total_sent`, `last_sent`), the logs, the send trace and the clock are
untouched, other users' registry entries are untouched, the stopped
user's entry is gone, and when no task is registered for the user the
call is a complete no-op. -/
theorem C10_stop_only_cancels_handle (st : SchedState) (user_id : Nat) :
    (stop_user_schedule st user_id).userConfigs = st.userConfigs ∧
    (stop_user_schedule st user_id).messages = st.messages ∧
    (stop_user_schedule st user_id).errors = st.errors ∧
    (stop_user_schedule st user_id).sent = st.sent ∧
    (stop_user_schedule st user_id).now = st.now ∧
    alookup (stop_user_schedule st user_id).activeTasks user_id = none ∧
    (∀ u, u ≠ user_id → alookup (stop_user_schedule st user_id).activeTasks u
        = alookup st.activeTasks u) ∧
    (alookup st.activeTasks user_id = none → stop_user_schedule st user_id = st) := by
  unfold stop_user_schedule
  cases hr : alookup st.activeTasks user_id with
  | none => exact ⟨rfl, rfl, rfl, rfl, rfl, hr, fun u hu => rfl, fun h0 => rfl⟩
  | some tid =>
    refine ⟨rfl, rfl, rfl, rfl, rfl, ?_, ?_, ?_⟩
    · exact alookup_aerase_self _ _
    · intro u hu
      exact alookup_aerase_ne _ hu
    · intro h0
      cases h0

/-- Witness for C10 at concrete states: a registered task for user 7 is
removed without touching configs, user 9's (absent) entry is untouched,
and stopping with nothing registered is a no-op. -/
theorem C10_stop_only_cancels_handle_witness :
    (stop_user_schedule wStateOn 7).userConfigs = wStateOn.userConfigs ∧
    alookup (stop_user_schedule wStateOn 7).activeTasks 9 = alookup wStateOn.activeTasks 9 ∧
    stop_user_schedule wStateOff 7 = wStateOff :=
  ⟨(C10_stop_only_cancels_handle wStateOn 7).1,
   (C10_stop_only_cancels_handle wStateOn 7).2.2.2.2.2.2.1 9 (by decide),
   (C10_stop_only_cancels_handle wStateOff 7).2.2.2.2.2.2.2 (by decide)⟩

/-! ### C3 -/

/-- The empty start-up state (fresh process, no persisted data). -/
def emptyState : SchedState :=
  { userConfigs := [], messages := [], errors := [], tasks := []
    activeTasks := [], nextTid := 0, sent := [], now := 0 }

/-- The channel id stored by a successful run of the setup wizard. -/
def setupChannelResult (st : SchedState) (user_id : Nat)
    (token channel_id interval message : String) : Option String :=
  match setup_command st user_id token channel_id interval message with
  | Except.ok (_, config) => some config.channel_id
  | Except.error _ => none

/-- C3 counterexample: the channel id `"0123"` is all digits (so the
input is valid in the claim's sense), the setup wizard accepts it, but
the stored config's `channel_id` is the canonical form `"123"`, not the
input `"0123"` (the code stores `str(int(channel_id))`). -/
theorem C3_leading_zero_channel_counterexample :
    pyIsDigit "0123" = true ∧
    setupChannelResult emptyState 9 "tok" "0123" "5" "hello" = some "123" ∧
    ("123" : String) ≠ "0123" := by
  refine ⟨by decide, by decide, by decide⟩

theorem get_user_stats_config {st : SchedState} {user_id : Nat} {us : UserStats}
    (h : get_user_stats st user_id = some us) : get_user_config st user_id = some us.config := by
  unfold get_user_stats at h
  cases hc : get_user_config st user_id with
  | none => rw [hc] at h; cases h
  | some config =>
    rw [hc] at h
    simp only [Option.some.injEq] at h
    rw [← h]

theorem get_user_stats_after_set (st : SchedState) (user_id : Nat) (config : UserConfig) :
    (get_user_stats (start_user_schedule (set_user_config st user_id config) user_id)
      user_id).map UserStats.config = some config := by
  have hlook : get_user_config (start_user_schedule (set_user_config st user_id config) user_id)
      user_id = some config := by
    unfold get_user_config
    rw [start_userConfigs]
    exact alookup_ainsert_self _ _ _
  unfold get_user_stats
  rw [hlook]
  rfl

/-- C3 (amended): for every input accepted by the setup validation
(non-empty token, all-digit channel id, digit interval ≥ 1, non-empty
message), the stored config carries exactly the given interval, message
and token, `enabled = true`, and the canonical decimal form of the given
channel id (identical to the input whenever it has no leading zeros);
`get_user_stats` then returns exactly that config. -/
theorem C3_setup_then_stats_roundtrip (st : SchedState) (user_id : Nat)
    (token channel_id interval message : String) (st2 : SchedState) (config : UserConfig)
    (h : setup_command st user_id token channel_id interval message = Except.ok (st2, config)) :
    config.channel_id = toString (pyInt channel_id) ∧
    config.interval = pyInt interval ∧
    1 ≤ config.interval ∧
    config.message = message ∧
    config.enabled = true ∧
    config.token = token ∧
    (get_user_stats st2 user_id).map UserStats.config = some config := by
  unfold setup_command at h
  split_ifs at h with hA hB hC hD
  simp only [setup_user_schedule, Prod.mk.injEq, Except.ok.injEq] at h
  obtain ⟨hst2, hcfg⟩ := h
  have hint : 1 ≤ pyInt interval := by
    by_contra hlt
    refine hC ?_
    rw [Bool.or_eq_true, decide_eq_true_eq]
    exact Or.inr (by omega)
  subst hcfg
  subst hst2
  exact ⟨rfl, rfl, hint, rfl, rfl, rfl, get_user_stats_after_set st user_id _⟩

/-- Witness for C3 (amended) at a concrete valid input. -/
theorem C3_setup_then_stats_roundtrip_witness :
    ((setup_user_schedule emptyState 9 "tok" 55 5 "hi").2).channel_id
      = toString (pyInt "55") :=
  (C3_setup_then_stats_roundtrip emptyState 9 "tok" "55" "5" "hi"
    (setup_user_schedule emptyState 9 "tok" 55 5 "hi").1
    (setup_user_schedule emptyState 9 "tok" 55 5 "hi").2 rfl).1

/-! ### C5 -/

/-- C5 (amended): in a delivery cycle where the channel does not resolve,
the loop appends a `"failed - channel not found"` delivery log entry and
an error log entry attributed to the user, leaves the persisted config
mapping (and therefore `total_sent`) completely unchanged — the config
record has no `error_count` field to increment; the per-user error tally
lives only in the error log — performs no send, and continues looping. -/
theorem C5_channel_not_found_cycle (cl : Client) (st : SchedState) (user_id interval : Nat)
    (channel_id message : String) (config : UserConfig)
    (hc : get_user_config st user_id = some config) (he : config.enabled = true)
    (hr : cl.resolve (pyInt channel_id) = false) :
    (run_cycle cl st user_id interval channel_id message).2 = CycleOutcome.cont ∧
    (run_cycle cl st user_id interval channel_id message).1.userConfigs = st.userConfigs ∧
    (run_cycle cl st user_id interval channel_id message).1.sent = st.sent ∧
    (run_cycle cl st user_id interval channel_id message).1.messages
      = lastN 1000 (st.messages ++ [mkLogEntry (st.now + interval * 60) user_id channel_id
          message "failed - channel not found"]) ∧
    (run_cycle cl st user_id interval channel_id message).1.errors
      = lastN 500 (st.errors ++ [mkErrorEntry (st.now + interval * 60) (some user_id)
          ("Channel " ++ channel_id ++ " not found")]) := by
  have main : run_cycle cl st user_id interval channel_id message
      = (log_error (log_message (advance st (interval * 60)) user_id channel_id message
            "failed - channel not found")
          ("Channel " ++ channel_id ++ " not found") (some user_id), CycleOutcome.cont) := by
    simp [run_cycle, get_user_config_advance, hc, he, hr]
  refine ⟨by rw [main], by rw [main]; rfl, by rw [main]; rfl, ?_, ?_⟩
  · rw [main]
    exact log_message_messages _ _ _ _ _
  · rw [main]
    exact log_error_errors _ _ _

/-- Witness for C5 (amended) at a concrete enabled config and a client
that resolves no channel. -/
theorem C5_channel_not_found_cycle_witness :
    (run_cycle noChannelClient wStateOn 7 5 "123" "hi").2 = CycleOutcome.cont ∧
    (run_cycle noChannelClient wStateOn 7 5 "123" "hi").1.userConfigs = wStateOn.userConfigs :=
  ⟨(C5_channel_not_found_cycle noChannelClient wStateOn 7 5 "123" "hi" wCfgOn
      (by decide) (by decide) rfl).1,
   (C5_channel_not_found_cycle noChannelClient wStateOn 7 5 "123" "hi" wCfgOn
      (by decide) (by decide) rfl).2.1⟩

/-- C5 counterexample: at a concrete failed-resolution cycle the user's
persisted config record afterwards is exactly the record from before —
nothing in it was incremented.  The `UserConfig` record (faithful to the
dictionary built in bot.py 130-139) has no `error_count` field at all,
so the claimed per-user `error_count` counter does not exist; only the
error log grows. -/
theorem C5_no_error_count_field_counterexample :
    (run_cycle noChannelClient wStateOn 7 5 "123" "hi").1.userConfigs = wStateOn.userConfigs ∧
    get_user_config (run_cycle noChannelClient wStateOn 7 5 "123" "hi").1 7 = some wCfgOn ∧
    get_user_config wStateOn 7 = some wCfgOn ∧
    (run_cycle noChannelClient wStateOn 7 5 "123" "hi").1.errors.length
      = wStateOn.errors.length + 1 := by
  refine ⟨by decide, by decide, by decide, by decide⟩

/-! ### C6 -/

/-- The rejection reason (if any) reported by the setup wizard. -/
def setupRejectReason (st : SchedState) (user_id : Nat)
    (token channel_id interval message : String) : Option SetupReject :=
  match setup_command st user_id token channel_id interval message with
  | Except.error r => some r
  | Except.ok _ => none

/-- C6: the claim is right and the code is wrong: the bot's own setup
wizard and help text state "Minimum interval: 1 minute" and the setup
path rejects intervals below 1, but the `!edit` interval path
(bot.py 800-808) checks only `isdigit()` and persists the reply `"0"`,
leaving a configuration at rest with `interval = 0` below the minimum. -/
theorem C6_edit_persists_below_minimum_interval :
    pyIsDigit "0" = true ∧
    (get_user_config (edit_interval wStateOn 7 "0") 7).map UserConfig.interval = some 0 ∧
    setupRejectReason emptyState 7 "tok" "123" "0" "hi" = some SetupReject.badInterval := by
  refine ⟨by decide, by decide, by decide⟩

/-! ### C8 -/

/-- The empty persisted state at simulated boot time `T0 = 1000`. -/
def demoT0State : SchedState :=
  { userConfigs := [], messages := [], errors := [], tasks := []
    activeTasks := [], nextTid := 0, sent := [], now := 1000 }

/-- C8: in a delivery cycle whose send succeeds, the loop sends exactly
once, increments `total_sent` by exactly 1, stamps `last_sent` with the
current (post-sleep) time, persists the updated config, appends a
`"sent"` log entry and continues; in particular for the config
`{interval: 5, message: "hi", channel_id: "123"}` created at `T0` with an
always-succeeding client, after the wake-up at `T0+5min` exactly one send
of `"hi"` to channel `123` has occurred and `total_sent = 1`. -/
theorem C8_successful_send_updates (cl : Client) (st : SchedState) (user_id interval : Nat)
    (channel_id message : String) (config : UserConfig)
    (hc : get_user_config st user_id = some config) (he : config.enabled = true)
    (hr : cl.resolve (pyInt channel_id) = true)
    (hs : cl.send (pyInt channel_id) message = none) :
    (run_cycle cl st user_id interval channel_id message).2 = CycleOutcome.cont ∧
    get_user_config (run_cycle cl st user_id interval channel_id message).1 user_id
      = some { config with
          last_sent := some (st.now + interval * 60)
          total_sent := config.total_sent + 1 } ∧
    (run_cycle cl st user_id interval channel_id message).1.sent
      = st.sent ++ [(pyInt channel_id, message)] ∧
    (run_cycle cl st user_id interval channel_id message).1.messages
      = lastN 1000 (st.messages
          ++ [mkLogEntry (st.now + interval * 60) user_id channel_id message "sent"]) ∧
    (run_cycle cl st user_id interval channel_id message).1.now = st.now + interval * 60 ∧
    (run_user_schedule okClient 1 (setup_user_schedule demoT0State 7 "tok" 123 5 "hi").1 7).sent
      = [(123, "hi")] ∧
    (get_user_config (run_user_schedule okClient 1
        (setup_user_schedule demoT0State 7 "tok" 123 5 "hi").1 7) 7).map UserConfig.total_sent
      = some 1 ∧
    (run_user_schedule okClient 1 (setup_user_schedule demoT0State 7 "tok" 123 5 "hi").1 7).now
      = demoT0State.now + 5 * 60 := by
  have main : run_cycle cl st user_id interval channel_id message
      = (log_message (set_user_config (recordSend (advance st (interval * 60))
            (pyInt channel_id) message) user_id
            { config with
                last_sent := some (st.now + interval * 60)
                total_sent := config.total_sent + 1 })
          user_id channel_id message "sent", CycleOutcome.cont) := by
    simp [run_cycle, get_user_config_advance, hc, he, hr, hs]
    rfl
  refine ⟨by rw [main], ?_, by rw [main]; rfl, ?_, by rw [main]; rfl,
    by decide, by decide, by decide⟩
  · rw [main]
    exact alookup_ainsert_self _ _ _
  · rw [main]
    exact log_message_messages _ _ _ _ _

/-- Witness for C8 at a concrete enabled config with the always-ok
client. -/
theorem C8_successful_send_updates_witness :
    (run_cycle okClient wStateOn 7 5 "123" "hi").2 = CycleOutcome.cont ∧
    (run_cycle okClient wStateOn 7 5 "123" "hi").1.sent
      = wStateOn.sent ++ [(pyInt "123", "hi")] :=
  ⟨(C8_successful_send_updates okClient wStateOn 7 5 "123" "hi" wCfgOn
      (by decide) (by decide) rfl rfl).1,
   (C8_successful_send_updates okClient wStateOn 7 5 "123" "hi" wCfgOn
      (by decide) (by decide) rfl rfl).2.2.1⟩

/-! ### C7 -/

/-- The write operations of the running system other than
`setup_user_schedule`: the three `!edit` paths, the `!start`/`!stop`
command cores, the scheduler's own start/stop, configuration deletion
(dashboard flow: stop, then delete), one delivery-loop cycle, and the
two log writers. -/
inductive SchedOp : Type
  | editMessageOp (user_id : Nat) (s : String)
  | editIntervalOp (user_id : Nat) (s : String)
  | editChannelOp (user_id : Nat) (s : String)
  | enableOp (user_id : Nat)
  | disableOp (user_id : Nat)
  | startOp (user_id : Nat)
  | stopOp (user_id : Nat)
  | deleteOp (user_id : Nat)
  | cycleOp (user_id interval : Nat) (channel_id message : String)
  | logMessageOp (user_id : Nat) (channel_id message status : String)
  | logErrorOp (e : String) (user_id : Option Nat)

/-- Apply one operation to the state (the Messaging Client is a
parameter of the delivery cycle). -/
def applyOp (cl : Client) (st : SchedState) : SchedOp → SchedState
  | SchedOp.editMessageOp u s => edit_message st u s
  | SchedOp.editIntervalOp u s => edit_interval st u s
  | SchedOp.editChannelOp u s => edit_channel st u s
  | SchedOp.enableOp u => start_command st u
  | SchedOp.disableOp u => stop_command st u
  | SchedOp.startOp u => start_user_schedule st u
  | SchedOp.stopOp u => stop_user_schedule st u
  | SchedOp.deleteOp u => (delete_user_config (stop_user_schedule st u) u).1
  | SchedOp.cycleOp u interval channel_id message => (run_cycle cl st u interval channel_id message).1
  | SchedOp.logMessageOp u channel_id message status => log_message st u channel_id message status
  | SchedOp.logErrorOp e u => log_error st e u

theorem log_message_userConfigs (st : SchedState) (u : Nat) (cid msg status : String) :
    (log_message st u cid msg status).userConfigs = st.userConfigs := rfl

theorem log_error_userConfigs (st : SchedState) (e : String) (u : Option Nat) :
    (log_error st e u).userConfigs = st.userConfigs := rfl

theorem le_total_sent_of_eq {l : List (String × UserConfig)} {k : String} {c c2 : UserConfig}
    (h : alookup l k = some c) (h2 : alookup l k = some c2) : c.total_sent ≤ c2.total_sent := by
  rw [h] at h2
  injection h2 with h3
  rw [h3]

theorem total_sent_mono_ainsert {l : List (String × UserConfig)} {k k2 : String}
    {newCfg base c c2 : UserConfig}
    (hbase : alookup l k = some base)
    (hts : base.total_sent ≤ newCfg.total_sent)
    (h : alookup l k2 = some c)
    (h2 : alookup (ainsert l k newCfg) k2 = some c2) :
    c.total_sent ≤ c2.total_sent := by
  rw [alookup_ainsert] at h2
  by_cases hk : k2 = k
  · rw [if_pos hk] at h2
    injection h2 with h3
    rw [hk] at h
    rw [h] at hbase
    injection hbase with h4
    rw [← h3, h4]
    exact hts
  · rw [if_neg hk] at h2
    exact le_total_sent_of_eq h h2

theorem edit_message_configs (st : SchedState) (u0 : Nat) (s : String) :
    (edit_message st u0 s).userConfigs = st.userConfigs ∨
    ∃ base newCfg, get_user_config st u0 = some base ∧ newCfg.total_sent = base.total_sent ∧
      (edit_message st u0 s).userConfigs = ainsert st.userConfigs (toString u0) newCfg := by
  unfold edit_message
  cases hg : get_user_stats st u0 with
  | none => left; rfl
  | some us =>
    right
    refine ⟨us.config, { us.config with message := s }, get_user_stats_config hg, rfl, ?_⟩
    dsimp only
    rw [start_userConfigs, stop_userConfigs]
    rfl

theorem edit_interval_configs (st : SchedState) (u0 : Nat) (s : String) :
    (edit_interval st u0 s).userConfigs = st.userConfigs ∨
    ∃ base newCfg, get_user_config st u0 = some base ∧ newCfg.total_sent = base.total_sent ∧
      (edit_interval st u0 s).userConfigs = ainsert st.userConfigs (toString u0) newCfg := by
  unfold edit_interval
  cases hg : get_user_stats st u0 with
  | none => left; rfl
  | some us =>
    by_cases hd : pyIsDigit s = true
    · right
      refine ⟨us.config, { us.config with interval := pyInt s }, get_user_stats_config hg, rfl, ?_⟩
      dsimp only
      rw [if_pos hd]
      rw [start_userConfigs, stop_userConfigs]
      rfl
    · left
      dsimp only
      rw [if_neg hd]

theorem edit_channel_configs (st : SchedState) (u0 : Nat) (s : String) :
    (edit_channel st u0 s).userConfigs = st.userConfigs ∨
    ∃ base newCfg, get_user_config st u0 = some base ∧ newCfg.total_sent = base.total_sent ∧
      (edit_channel st u0 s).userConfigs = ainsert st.userConfigs (toString u0) newCfg := by
  unfold edit_channel
  cases hg : get_user_stats st u0 with
  | none => left; rfl
  | some us =>
    by_cases hd : pyIsDigit s = true
    · right
      refine ⟨us.config, { us.config with channel_id := s }, get_user_stats_config hg, rfl, ?_⟩
      dsimp only
      rw [if_pos hd]
      rw [start_userConfigs, stop_userConfigs]
      rfl
    · left
      dsimp only
      rw [if_neg hd]

theorem start_command_configs (st : SchedState) (u0 : Nat) :
    (start_command st u0).userConfigs = st.userConfigs ∨
    ∃ base newCfg, get_user_config st u0 = some base ∧ newCfg.total_sent = base.total_sent ∧
      (start_command st u0).userConfigs = ainsert st.userConfigs (toString u0) newCfg := by
  unfold start_command
  cases hg : get_user_stats st u0 with
  | none => left; rfl
  | some us =>
    right
    refine ⟨us.config, { us.config with enabled := true }, get_user_stats_config hg, rfl, ?_⟩
    dsimp only
    rw [start_userConfigs]
    rfl

theorem stop_command_configs (st : SchedState) (u0 : Nat) :
    (stop_command st u0).userConfigs = st.userConfigs ∨
    ∃ base newCfg, get_user_config st u0 = some base ∧ newCfg.total_sent = base.total_sent ∧
      (stop_command st u0).userConfigs = ainsert st.userConfigs (toString u0) newCfg := by
  unfold stop_command
  cases hg : get_user_stats st u0 with
  | none => left; rfl
  | some us =>
    right
    refine ⟨us.config, { us.config with enabled := false }, get_user_stats_config hg, rfl, ?_⟩
    dsimp only
    rw [stop_userConfigs]
    rfl

theorem delete_configs (st : SchedState) (u0 : Nat) :
    ((delete_user_config (stop_user_schedule st u0) u0).1).userConfigs = st.userConfigs ∨
    ((delete_user_config (stop_user_schedule st u0) u0).1).userConfigs
      = aerase st.userConfigs (toString u0) := by
  unfold delete_user_config
  cases hl : alookup (stop_user_schedule st u0).userConfigs (toString u0) with
  | none =>
    left
    dsimp only
    exact stop_userConfigs st u0
  | some cfg =>
    right
    dsimp only
    rw [stop_userConfigs]

theorem run_cycle_configs (cl : Client) (st : SchedState) (u0 interval : Nat)
    (channel_id message : String) :
    (run_cycle cl st u0 interval channel_id message).1.userConfigs = st.userConfigs ∨
    ∃ base, get_user_config st u0 = some base ∧
      (run_cycle cl st u0 interval channel_id message).1.userConfigs
        = ainsert st.userConfigs (toString u0)
            { base with
                last_sent := some (st.now + interval * 60)
                total_sent := base.total_sent + 1 } := by
  rcases hc : get_user_config st u0 with - | config
  · have main : run_cycle cl st u0 interval channel_id message
        = (advance st (interval * 60), CycleOutcome.exit) := by
      simp [run_cycle, get_user_config_advance, hc]
    left
    rw [main]
    rfl
  · by_cases he : config.enabled = true
    · by_cases hr : cl.resolve (pyInt channel_id) = true
      · rcases hs : cl.send (pyInt channel_id) message with - | e
        · have main : run_cycle cl st u0 interval channel_id message
              = (log_message (set_user_config (recordSend (advance st (interval * 60))
                    (pyInt channel_id) message) u0
                    { config with
                        last_sent := some (st.now + interval * 60)
                        total_sent := config.total_sent + 1 })
                  u0 channel_id message "sent", CycleOutcome.cont) := by
            simp [run_cycle, get_user_config_advance, hc, he, hr, hs]
            rfl
          right
          refine ⟨config, rfl, ?_⟩
          rw [main]
          rfl
        · have main : run_cycle cl st u0 interval channel_id message
              = (advance (log_error (advance st (interval * 60))
                  ("Error in user schedule " ++ toString u0 ++ ": " ++ e) (some u0)) 60,
                 CycleOutcome.cont) := by
            simp [run_cycle, get_user_config_advance, hc, he, hr, hs]
          left
          rw [main]
          rfl
      · have hr2 : cl.resolve (pyInt channel_id) = false := by
          revert hr; cases cl.resolve (pyInt channel_id) <;> simp
        have main : run_cycle cl st u0 interval channel_id message
            = (log_error (log_message (advance st (interval * 60)) u0 channel_id message
                  "failed - channel not found")
                ("Channel " ++ channel_id ++ " not found") (some u0), CycleOutcome.cont) := by
          simp [run_cycle, get_user_config_advance, hc, he, hr2]
        left
        rw [main]
        rfl
    · have he2 : config.enabled = false := by
        revert he; cases config.enabled <;> simp
      have main : run_cycle cl st u0 interval channel_id message
          = (advance st (interval * 60), CycleOutcome.exit) := by
        simp [run_cycle, get_user_config_advance, hc, he2]
      left
      rw [main]
      rfl

/-- C7 (amended): `total_sent` never decreases under any operation of the
running system — the `!edit` paths, enabling, disabling, the scheduler's
start/stop, deletion (while the record still exists afterwards, i.e.
vacuously), delivery cycles and log writes.  The exception forced by the
counterexample is `setup_user_schedule` itself: re-running the setup
wizard for an existing user re-creates the record with `total_sent = 0`. -/
theorem C7_total_sent_never_decreases (cl : Client) (op : SchedOp) (st : SchedState)
    (u : Nat) (c c2 : UserConfig)
    (h : get_user_config st u = some c)
    (h2 : get_user_config (applyOp cl st op) u = some c2) :
    c.total_sent ≤ c2.total_sent := by
  unfold get_user_config at h h2
  cases op with
  | editMessageOp u0 s =>
    dsimp only [applyOp] at h2
    rcases edit_message_configs st u0 s with heq | ⟨base, newCfg, hbase, hts, heq⟩
    · rw [heq] at h2
      exact le_total_sent_of_eq h h2
    · rw [heq] at h2
      exact total_sent_mono_ainsert hbase (Nat.le_of_eq hts.symm) h h2
  | editIntervalOp u0 s =>
    dsimp only [applyOp] at h2
    rcases edit_interval_configs st u0 s with heq | ⟨base, newCfg, hbase, hts, heq⟩
    · rw [heq] at h2
      exact le_total_sent_of_eq h h2
    · rw [heq] at h2
      exact total_sent_mono_ainsert hbase (Nat.le_of_eq hts.symm) h h2
  | editChannelOp u0 s =>
    dsimp only [applyOp] at h2
    rcases edit_channel_configs st u0 s with heq | ⟨base, newCfg, hbase, hts, heq⟩
    · rw [heq] at h2
      exact le_total_sent_of_eq h h2
    · rw [heq] at h2
      exact total_sent_mono_ainsert hbase (Nat.le_of_eq hts.symm) h h2
  | enableOp u0 =>
    dsimp only [applyOp] at h2
    rcases start_command_configs st u0 with heq | ⟨base, newCfg, hbase, hts, heq⟩
    · rw [heq] at h2
      exact le_total_sent_of_eq h h2
    · rw [heq] at h2
      exact total_sent_mono_ainsert hbase (Nat.le_of_eq hts.symm) h h2
  | disableOp u0 =>
    dsimp only [applyOp] at h2
    rcases stop_command_configs st u0 with heq | ⟨base, newCfg, hbase, hts, heq⟩
    · rw [heq] at h2
      exact le_total_sent_of_eq h h2
    · rw [heq] at h2
      exact total_sent_mono_ainsert hbase (Nat.le_of_eq hts.symm) h h2
  | startOp u0 =>
    dsimp only [applyOp] at h2
    rw [start_userConfigs] at h2
    exact le_total_sent_of_eq h h2
  | stopOp u0 =>
    dsimp only [applyOp] at h2
    rw [stop_userConfigs] at h2
    exact le_total_sent_of_eq h h2
  | deleteOp u0 =>
    dsimp only [applyOp] at h2
    rcases delete_configs st u0 with heq | heq
    · rw [heq] at h2
      exact le_total_sent_of_eq h h2
    · rw [heq] at h2
      by_cases hk : toString u = toString u0
      · rw [hk, alookup_aerase_self] at h2
        cases h2
      · rw [alookup_aerase_ne _ hk] at h2
        exact le_total_sent_of_eq h h2
  | cycleOp u0 interval channel_id message =>
    dsimp only [applyOp] at h2
    rcases run_cycle_configs cl st u0 interval channel_id message with heq | ⟨base, hbase, heq⟩
    · rw [heq] at h2
      exact le_total_sent_of_eq h h2
    · rw [heq] at h2
      exact total_sent_mono_ainsert hbase (Nat.le_succ _) h h2
  | logMessageOp u0 channel_id message status =>
    dsimp only [applyOp] at h2
    rw [log_message_userConfigs] at h2
    exact le_total_sent_of_eq h h2
  | logErrorOp e u0 =>
    dsimp only [applyOp] at h2
    rw [log_error_userConfigs] at h2
    exact le_total_sent_of_eq h h2

/-- Witness for C7 at a concrete edit of user 7's interval. -/
theorem C7_total_sent_never_decreases_witness :
    wCfgOn.total_sent ≤ ({ wCfgOn with interval := 9 } : UserConfig).total_sent :=
  C7_total_sent_never_decreases okClient (SchedOp.editIntervalOp 7 "9") wStateOn 7
    wCfgOn { wCfgOn with interval := 9 } (by decide) (by decide)

/-- C7 counterexample: user 7's persisted record has `total_sent = 5`;
re-running setup for user 7 ("create or update") leaves a record with
`total_sent = 0` — the counter decreased while the record existed
throughout. -/
theorem C7_setup_resets_total_sent_counterexample :
    (get_user_config wStateOn 7).map UserConfig.total_sent = some 5 ∧
    (get_user_config (setup_user_schedule wStateOn 7 "tok" 123 5 "hi").1 7).map
      UserConfig.total_sent = some 0 ∧ (0 : Nat) < 5 := by
  refine ⟨by decide, by decide, by decide⟩

/-! ### C9 -/

theorem not_enabled_forall {st : SchedState} {u0 : Nat}
    (hen : ¬∃ config, get_user_config st u0 = some config ∧ config.enabled = true) :
    ∀ config, get_user_config st u0 = some config → config.enabled = false := by
  intro config hcc
  by_contra hne
  exact hen ⟨config, hcc, by revert hne; cases config.enabled <;> simp⟩

theorem start_activeTasks_ne (st : SchedState) (u0 u : Nat) (h : u ≠ u0) :
    alookup (start_user_schedule st u0).activeTasks u = alookup st.activeTasks u := by
  by_cases hen : ∃ config, get_user_config st u0 = some config ∧ config.enabled = true
  · obtain ⟨config, hc, he⟩ := hen
    rw [start_eq_of_enabled st u0 config hc he]
    exact alookup_ainsert_ne _ _ h
  · rw [start_eq_of_not_enabled st u0 (not_enabled_forall hen)]

theorem start_tasks_mono_of_unregistered (st : SchedState) (u0 : Nat)
    (hr : alookup st.activeTasks u0 = none) :
    ∀ t ∈ st.tasks, t ∈ (start_user_schedule st u0).tasks := by
  intro t ht
  by_cases hen : ∃ config, get_user_config st u0 = some config ∧ config.enabled = true
  · obtain ⟨config, hc, he⟩ := hen
    rw [start_eq_of_enabled st u0 config hc he]
    dsimp only
    rw [hr]
    exact List.mem_append_left _ ht
  · rw [start_eq_of_not_enabled st u0 (not_enabled_forall hen)]
    exact ht

theorem start_registers (st : SchedState) (u0 : Nat) (config : UserConfig)
    (hc : get_user_config st u0 = some config) (he : config.enabled = true)
    (hr : alookup st.activeTasks u0 = none) :
    alookup (start_user_schedule st u0).activeTasks u0 = some st.nextTid ∧
    ({ tid := st.nextTid, user_id := u0, cancelled := false } : SchedTask)
      ∈ (start_user_schedule st u0).tasks := by
  rw [start_eq_of_enabled st u0 config hc he]
  refine ⟨alookup_ainsert_self _ _ _, ?_⟩
  dsimp only
  rw [hr]
  exact List.mem_append_right _ (List.mem_singleton_self _)

theorem boot_aux (ks : List String) : ∀ (st : SchedState),
    (∀ k ∈ ks, alookup st.activeTasks (pyInt k) = none) →
    (ks.map pyInt).Nodup →
    ((ks.foldl (fun s k => start_user_schedule s (pyInt k)) st).userConfigs = st.userConfigs ∧
     (∀ t ∈ st.tasks, t ∈ (ks.foldl (fun s k => start_user_schedule s (pyInt k)) st).tasks) ∧
     (∀ u, u ∉ ks.map pyInt →
       alookup (ks.foldl (fun s k => start_user_schedule s (pyInt k)) st).activeTasks u
         = alookup st.activeTasks u) ∧
     (∀ k ∈ ks, ∀ config, alookup st.userConfigs (toString (pyInt k)) = some config →
       (config.enabled = true →
         ∃ tid, alookup (ks.foldl (fun s k => start_user_schedule s (pyInt k)) st).activeTasks
             (pyInt k) = some tid ∧
           ({ tid := tid, user_id := pyInt k, cancelled := false } : SchedTask)
             ∈ (ks.foldl (fun s k => start_user_schedule s (pyInt k)) st).tasks) ∧
       (config.enabled = false →
         alookup (ks.foldl (fun s k => start_user_schedule s (pyInt k)) st).activeTasks
           (pyInt k) = none))) := by
  induction ks with
  | nil =>
    intro st hks hnd
    exact ⟨rfl, fun t ht => ht, fun u _ => rfl, fun k hk => absurd hk (List.not_mem_nil k)⟩
  | cons k ks ih =>
    intro st hks hnd
    have hrk : alookup st.activeTasks (pyInt k) = none := hks k (List.mem_cons_self _ _)
    have hnotmem : pyInt k ∉ ks.map pyInt := by
      rw [List.map_cons] at hnd
      exact (List.nodup_cons.mp hnd).1
    have hks1 : ∀ k2 ∈ ks, alookup (start_user_schedule st (pyInt k)).activeTasks (pyInt k2)
        = none := by
      intro k2 hk2
      have hne : pyInt k2 ≠ pyInt k := by
        intro heq
        exact hnotmem (heq ▸ List.mem_map_of_mem pyInt hk2)
      rw [start_activeTasks_ne st (pyInt k) (pyInt k2) hne]
      exact hks k2 (List.mem_cons_of_mem _ hk2)
    have hnd1 : (ks.map pyInt).Nodup := by
      rw [List.map_cons] at hnd
      exact (List.nodup_cons.mp hnd).2
    obtain ⟨ih1, ih2, ih3, ih4⟩ := ih (start_user_schedule st (pyInt k)) hks1 hnd1
    have hcfg1 : (start_user_schedule st (pyInt k)).userConfigs = st.userConfigs :=
      start_userConfigs st (pyInt k)
    refine ⟨?_, ?_, ?_, ?_⟩
    · rw [List.foldl_cons, ih1, hcfg1]
    · intro t ht
      rw [List.foldl_cons]
      exact ih2 t (start_tasks_mono_of_unregistered st (pyInt k) hrk t ht)
    · intro u hu
      rw [List.map_cons] at hu
      have hu1 : u ∉ ks.map pyInt := fun hh => hu (List.mem_cons_of_mem _ hh)
      have hu2 : u ≠ pyInt k := fun heq => hu (heq ▸ List.mem_cons_self _ _)
      rw [List.foldl_cons, ih3 u hu1, start_activeTasks_ne st (pyInt k) u hu2]
    · intro k0 hk0 config hcfg
      rw [List.foldl_cons]
      rcases List.mem_cons.mp hk0 with heqk | hmem
      · subst heqk
        constructor
        · intro hen
          have hreg := start_registers st (pyInt k0) config hcfg hen hrk
          refine ⟨st.nextTid, ?_, ?_⟩
          · rw [ih3 (pyInt k0) hnotmem]
            exact hreg.1
          · exact ih2 _ hreg.2
        · intro hdis
          have heq1 : start_user_schedule st (pyInt k0) = st :=
            start_eq_of_not_enabled st (pyInt k0) (by
              intro c hcc
              unfold get_user_config at hcc
              rw [hcfg] at hcc
              injection hcc with hc2
              rw [← hc2]
              exact hdis)
          rw [ih3 (pyInt k0) hnotmem, heq1]
          exact hrk
      · have hcfg2 : alookup (start_user_schedule st (pyInt k)).userConfigs
            (toString (pyInt k0)) = some config := by
          rw [hcfg1]
          exact hcfg
        exact ih4 k0 hmem config hcfg2

/-- C9: booting from a fresh process state (`on_ready` restart loop, with
no task registered yet) leaves every persisted config unchanged and, for
every stored record: if `enabled = true` a live (never-cancelled) loop
task is registered for that user, and if `enabled = false` no task is
registered for that user.  The hypotheses state the dictionary facts of
the store: keys are `str(user_id)` in canonical form and are distinct. -/
theorem C9_boot_restarts_exactly_enabled (st : SchedState)
    (hA : st.activeTasks = [])
    (hcanon : ∀ p ∈ st.userConfigs, toString (pyInt p.1) = p.1)
    (hnd : (st.userConfigs.map (fun p => pyInt p.1)).Nodup) :
    (on_ready_boot st).userConfigs = st.userConfigs ∧
    (∀ k config, alookup st.userConfigs k = some config →
      (config.enabled = true →
        ∃ tid, alookup (on_ready_boot st).activeTasks (pyInt k) = some tid ∧
          ({ tid := tid, user_id := pyInt k, cancelled := false } : SchedTask)
            ∈ (on_ready_boot st).tasks) ∧
      (config.enabled = false →
        alookup (on_ready_boot st).activeTasks (pyInt k) = none)) := by
  have hks : ∀ k ∈ st.userConfigs.map (fun p => p.1),
      alookup st.activeTasks (pyInt k) = none := by
    intro k hk
    rw [hA]
    rfl
  have hnd2 : ((st.userConfigs.map (fun p => p.1)).map pyInt).Nodup := by
    rw [List.map_map]
    exact hnd
  obtain ⟨b1, b2, b3, b4⟩ := boot_aux (st.userConfigs.map (fun p => p.1)) st hks hnd2
  refine ⟨b1, ?_⟩
  intro k config hcfg
  have hpmem : (k, config) ∈ st.userConfigs := alookup_mem hcfg
  have hkmem : k ∈ st.userConfigs.map (fun p => p.1) :=
    List.mem_map_of_mem (fun p => p.1) hpmem
  have hcan : toString (pyInt k) = k := hcanon (k, config) hpmem
  have hcfg2 : alookup st.userConfigs (toString (pyInt k)) = some config := by
    rw [hcan]
    exact hcfg
  exact b4 k hkmem config hcfg2

/-- A fresh boot state holding one enabled (user 4) and one disabled
(user 9) persisted config. -/
def bootState : SchedState :=
  { userConfigs := [("4", wCfgOn), ("9", wCfgOff)], messages := [], errors := []
    tasks := [], activeTasks := [], nextTid := 0, sent := [], now := 0 }

/-- Witness for C9 at the concrete two-user boot state. -/
theorem C9_boot_restarts_exactly_enabled_witness :
    (on_ready_boot bootState).userConfigs = bootState.userConfigs ∧
    alookup (on_ready_boot bootState).activeTasks (pyInt "9") = none :=
  ⟨(C9_boot_restarts_exactly_enabled bootState rfl (by decide) (by decide)).1,
   ((C9_boot_restarts_exactly_enabled bootState rfl (by decide) (by decide)).2 "9" wCfgOff
      (by decide)).2 (by decide)⟩
